import Mathlib

/-!
# Robotiq gripper serial interface: frame construction and transactions

A shallow embedding of `robotiq_driver/src/robotiq_gripper_interface.cpp`.

* Bytes (`uint8_t`) and registers (`uint16_t`) are natural numbers; every place
  where the C++ narrows a value to a fixed width is an explicit `% 2 ^ w`.
* `std::vector<uint8_t>` is `List Nat`; `push_back` is appending one element.
* The serial port is an explicit state machine (`Serial`), and every call made on it
  and every line printed to `std::cerr` is recorded in a `World`.
* `computeCRC` lives in `robotiq_driver/crc.hpp`, outside the translated file, so the
  frame builders take the checksum function as a parameter `crcOf`.
-/

namespace RobotiqGripper

/-! ## Constants -/

def kReadFunctionCode : Nat := 0x03
def kFirstOutputRegister : Nat := 0x07D0
def kNumOutputRegisters : Nat := 0x06

def kWriteFunctionCode : Nat := 0x10
def kActionRequestRegister : Nat := 0x03E8

/-! ## Byte helpers -/

/-- Source: `static uint8_t getFirstByte(uint16_t val) { return (val & 0xFF00) >> 8; }`.
The mask makes the result independent of any bits of `val` above bit 15, so the
narrowing of the argument to `uint16_t` needs no separate reduction. -/
def getFirstByte (val : Nat) : Nat := ((val &&& 0xFF00) >>> 8) % 2 ^ 8

/-- Source: `static uint8_t getSecondByte(uint16_t val) { return val & 0x00FF; }`. -/
def getSecondByte (val : Nat) : Nat := (val &&& 0x00FF) % 2 ^ 8

/-! ## Checksum -/

/-- One of the eight shift steps of the checksum register. -/
def crcShift (reg : Nat) : Nat :=
  if reg &&& 1 = 1 then (reg >>> 1) ^^^ 0xA001 else reg >>> 1

/-- Folding one input byte into the checksum register. -/
def crcByte (reg b : Nat) : Nat :=
  crcShift (crcShift (crcShift (crcShift (crcShift (crcShift (crcShift (crcShift
    (reg ^^^ (b % 2 ^ 8)))))))))

/-- Modelled from the spec: `computeCRC` is declared in `robotiq_driver/crc.hpp`, whose
definition is not part of the translated source. The specification describes it as the
Modbus CRC-16: the 16-bit register starts at `0xFFFF`; each input byte is XORed into the
low byte of the register, followed by eight steps that shift the register right by one and
XOR it with `0xA001` when the bit shifted out was set. The final register is the checksum;
on the empty sequence it is `0xFFFF`. -/
def computeCRC (bytes : List Nat) : Nat := bytes.foldl crcByte 0xFFFF

/-! ## Frame builders -/

/-- Source: `RobotiqGripperInterface::createReadCommand`, for the interface whose `slave_id_` is
`slave_id`. -/
def createReadCommand (crcOf : List Nat → Nat) (slave_id first_register num_registers : Nat) :
    List Nat :=
  let cmd := [slave_id, kReadFunctionCode, getFirstByte first_register,
    getSecondByte first_register, num_registers]
  let crc := crcOf cmd
  let cmd := cmd ++ [getFirstByte crc]
  let cmd := cmd ++ [getSecondByte crc]
  cmd

/-- The body of the `for (auto d : data)` loop of `createWriteCommand`: two `push_back`s. -/
def pushRegister (cmd : List Nat) (d : Nat) : List Nat :=
  (cmd ++ [getFirstByte d]) ++ [getSecondByte d]

/-- Source: `RobotiqGripperInterface::createWriteCommand`, for the interface whose `slave_id_` is
`slave_id`. `num_registers` is a `uint16_t` initialised from `data.size()`, and `num_bytes`
a `uint8_t` initialised from `2 * num_registers`. -/
def createWriteCommand (crcOf : List Nat → Nat) (slave_id first_register : Nat)
    (data : List Nat) : List Nat :=
  let num_registers := data.length % 2 ^ 16
  let num_bytes := (2 * num_registers) % 2 ^ 8
  let cmd := [slave_id, kWriteFunctionCode, getFirstByte first_register,
    getSecondByte first_register, getFirstByte num_registers, getSecondByte num_registers,
    num_bytes]
  let cmd := data.foldl pushRegister cmd
  let crc := crcOf cmd
  let cmd := cmd ++ [getFirstByte crc]
  let cmd := cmd ++ [getSecondByte crc]
  cmd

/-! ## Parts of a frame -/

/-- The payload bytes of a write frame: every register, high byte then low byte. -/
def registerBytes (data : List Nat) : List Nat :=
  data.flatMap fun d => [getFirstByte d, getSecondByte d]

/-- The seven header bytes of a write frame. -/
def writeHeader (slave_id first_register : Nat) (data : List Nat) : List Nat :=
  [slave_id, kWriteFunctionCode, getFirstByte first_register, getSecondByte first_register,
    getFirstByte (data.length % 2 ^ 16), getSecondByte (data.length % 2 ^ 16),
    (2 * (data.length % 2 ^ 16)) % 2 ^ 8]

/-- The five header bytes of a read frame. -/
def readHeader (slave_id first_register num_registers : Nat) : List Nat :=
  [slave_id, kReadFunctionCode, getFirstByte first_register, getSecondByte first_register,
    num_registers]

/-- The frame `activateGripper` hands to the port. -/
def activateFrame (crcOf : List Nat → Nat) (slave_id : Nat) : List Nat :=
  createWriteCommand crcOf slave_id kActionRequestRegister [0x0100, 0x0000, 0x0000]

/-- The frame `deactivateGripper` hands to the port. -/
def deactivateFrame (crcOf : List Nat → Nat) (slave_id : Nat) : List Nat :=
  createWriteCommand crcOf slave_id kActionRequestRegister [0x0000, 0x0000, 0x0000]

/-! ## The serial port and the observable world -/

/-- The behaviour of the serial port `port_`, an external collaborator, over its own
state `σ`. `write` reports how many bytes it wrote; `read` reports the bytes it appended
to the caller's buffer and the count it returned. -/
structure Serial (σ : Type) where
  write : σ → List Nat → σ × Nat
  read : σ → Nat → σ × List Nat × Nat

/-- A call made on the serial port. -/
inductive PortCall where
  | write (data : List Nat)
  | read (size : Nat)
  deriving DecidableEq, Repr

/-- A line printed to `std::cerr`. -/
inductive Diagnostic where
  | failedToOpen
  | shortWrite (attempted written : Nat)
  | shortRead (requested got : Nat)
  deriving DecidableEq, Repr

/-- State of the port together with everything the interface did so far: the calls made
on the port and the lines printed, oldest first. -/
structure World (σ : Type) where
  port : σ
  calls : List PortCall
  cerr : List Diagnostic

/-- The data members of `RobotiqGripperInterface` other than the port. -/
structure RobotiqGripperInterface where
  slave_id_ : Nat
  read_command_ : List Nat
  deriving DecidableEq, Repr

/-- The constructor `RobotiqGripperInterface::RobotiqGripperInterface`; `isOpen` is what
`port_.isOpen()` answers after the port was constructed. -/
def RobotiqGripperInterface.new {σ : Type} (crcOf : List Nat → Nat) (isOpen : Bool)
    (slave_id : Nat) (w : World σ) : World σ × RobotiqGripperInterface :=
  let self : RobotiqGripperInterface :=
    { slave_id_ := slave_id
      read_command_ := createReadCommand crcOf slave_id kFirstOutputRegister kNumOutputRegisters }
  if !isOpen then
    ({ w with cerr := w.cerr ++ [Diagnostic.failedToOpen] }, self)
  else
    (w, self)

/-- Source: `RobotiqGripperInterface::readResponse`. -/
def readResponse {σ : Type} (port : Serial σ) (w : World σ) (num_bytes_requested : Nat) :
    World σ × List Nat :=
  let response : List Nat := []
  let r := port.read w.port num_bytes_requested
  let response := response ++ r.2.1
  let num_bytes_read := r.2.2
  let w := { w with port := r.1, calls := w.calls ++ [PortCall.read num_bytes_requested] }
  if num_bytes_read ≠ num_bytes_requested then
    ({ w with cerr := w.cerr ++ [Diagnostic.shortRead num_bytes_requested num_bytes_read] },
      response)
  else
    (w, response)

/-- Source: `RobotiqGripperInterface::activateGripper`. -/
def activateGripper {σ : Type} (crcOf : List Nat → Nat) (port : Serial σ)
    (self : RobotiqGripperInterface) (w : World σ) : World σ × Bool :=
  let cmd := createWriteCommand crcOf self.slave_id_ kActionRequestRegister
    [0x0100, 0x0000, 0x0000]
  let r := port.write w.port cmd
  let num_bytes_written := r.2
  let w := { w with port := r.1, calls := w.calls ++ [PortCall.write cmd] }
  if num_bytes_written ≠ cmd.length then
    ({ w with cerr := w.cerr ++ [Diagnostic.shortWrite cmd.length num_bytes_written] }, false)
  else
    let w := (readResponse port w 8).1
    (w, true)

/-- Source: `RobotiqGripperInterface::deactivateGripper`. -/
def deactivateGripper {σ : Type} (crcOf : List Nat → Nat) (port : Serial σ)
    (self : RobotiqGripperInterface) (w : World σ) : World σ :=
  let cmd := createWriteCommand crcOf self.slave_id_ kActionRequestRegister
    [0x0000, 0x0000, 0x0000]
  let r := port.write w.port cmd
  let num_bytes_written := r.2
  let w := { w with port := r.1, calls := w.calls ++ [PortCall.write cmd] }
  if num_bytes_written ≠ cmd.length then
    { w with cerr := w.cerr ++ [Diagnostic.shortWrite cmd.length num_bytes_written] }
  else
    (readResponse port w 8).1

/-! ## Observing the calls and decoding a frame -/

/-- Whether a call on the port is a write. -/
def PortCall.isWrite : PortCall → Bool
  | PortCall.write _ => true
  | PortCall.read _ => false

/-- Whether a call on the port is a read. -/
def PortCall.isRead : PortCall → Bool
  | PortCall.write _ => false
  | PortCall.read _ => true

/-- The frame handed to the port by a write call. -/
def PortCall.frame? : PortCall → Option (List Nat)
  | PortCall.write data => some data
  | PortCall.read _ => none

/-- Pairing bytes as big-endian 16-bit values: `hi, lo` becomes `(hi << 8) | lo`. -/
def pairRegisters : List Nat → List Nat
  | hi :: lo :: rest => ((hi <<< 8) ||| lo) :: pairRegisters rest
  | _ => []

/-- The reading of a write frame described by the injectivity claim; it is the inverse of
`createWriteCommand` and has no counterpart in the source. The slave id is byte 0, the
register is bytes 2 and 3 taken big-endian, and the data are the bytes from index 7 up to
the last two, paired as big-endian 16-bit values. -/
def decodeWriteCommand (f : List Nat) : Nat × Nat × List Nat :=
  (f.getD 0 0, ((f.getD 2 0) <<< 8) ||| (f.getD 3 0),
    pairRegisters ((f.drop 7).take (f.length - 7 - 2)))

/-! ## Test channels -/

/-- A port without state that writes nothing and delivers nothing. -/
def deadPort : Serial Unit where
  write := fun s _ => (s, 0)
  read := fun s _ => (s, [], 0)

/-- A port that accepts every frame whole but delivers only three bytes per read. -/
def shortReadPort : Serial Unit where
  write := fun s data => (s, data.length)
  read := fun s _ => (s, [0xAA, 0xBB, 0xCC], 3)

/-- The world before anything happened. -/
def World.init : World Unit := { port := (), calls := [], cerr := [] }

/-! ## Byte helpers: arithmetic facts -/

theorem and_mask_shift_eq (v : Nat) (h : v < 2 ^ 16) : (v &&& 0xFF00) >>> 8 = v >>> 8 := by
  apply Nat.eq_of_testBit_eq
  intro i
  rw [Nat.testBit_shiftRight, Nat.testBit_shiftRight, Nat.testBit_and]
  by_cases hi : i < 8
  · have hbit : Nat.testBit 0xFF00 (8 + i) = true := by
      interval_cases i <;> decide
    rw [hbit, Bool.and_true]
  · have hlt : v < 2 ^ (8 + i) :=
      lt_of_lt_of_le h (Nat.pow_le_pow_right (by decide) (by omega))
    rw [Nat.testBit_lt_two_pow hlt, Bool.false_and]

theorem and_low_eq_mod (v : Nat) : v &&& 0x00FF = v % 2 ^ 8 :=
  Nat.and_pow_two_sub_one_eq_mod v 8

theorem getFirstByte_lt (v : Nat) : getFirstByte v < 2 ^ 8 :=
  Nat.mod_lt _ (by decide)

theorem getSecondByte_lt (v : Nat) : getSecondByte v < 2 ^ 8 :=
  Nat.mod_lt _ (by decide)

theorem getFirstByte_eq_shift (v : Nat) (h : v < 2 ^ 16) : getFirstByte v = v >>> 8 := by
  unfold getFirstByte
  rw [and_mask_shift_eq v h, Nat.shiftRight_eq_div_pow]
  apply Nat.mod_eq_of_lt
  omega

theorem getSecondByte_eq_and (v : Nat) : getSecondByte v = v &&& 0xFF := by
  unfold getSecondByte
  rw [and_low_eq_mod, Nat.mod_mod]

theorem bytes_reassemble (v : Nat) (h : v < 2 ^ 16) :
    (getFirstByte v <<< 8) ||| getSecondByte v = v := by
  rw [getFirstByte_eq_shift v h, getSecondByte_eq_and, and_low_eq_mod, Nat.shiftLeft_eq,
    Nat.shiftRight_eq_div_pow, Nat.mul_comm,
    ← Nat.mul_add_lt_is_or (Nat.mod_lt v (by decide)) (v / 2 ^ 8)]
  exact Nat.div_add_mod v (2 ^ 8)

/-! ## Checksum: range -/

theorem crcShift_lt (reg : Nat) (h : reg < 2 ^ 16) : crcShift reg < 2 ^ 16 := by
  have hs : reg >>> 1 < 2 ^ 16 := by
    rw [Nat.shiftRight_eq_div_pow]
    omega
  unfold crcShift
  split
  · exact Nat.xor_lt_two_pow hs (by decide)
  · exact hs

theorem crcByte_lt (reg b : Nat) (h : reg < 2 ^ 16) : crcByte reg b < 2 ^ 16 := by
  have hb : b % 2 ^ 8 < 2 ^ 16 := lt_trans (Nat.mod_lt b (by decide)) (by decide)
  have h0 : reg ^^^ (b % 2 ^ 8) < 2 ^ 16 := Nat.xor_lt_two_pow h hb
  unfold crcByte
  exact crcShift_lt _ (crcShift_lt _ (crcShift_lt _ (crcShift_lt _ (crcShift_lt _
    (crcShift_lt _ (crcShift_lt _ (crcShift_lt _ h0)))))))

theorem foldl_crcByte_lt (bytes : List Nat) (reg : Nat) (h : reg < 2 ^ 16) :
    bytes.foldl crcByte reg < 2 ^ 16 := by
  induction bytes generalizing reg with
  | nil => exact h
  | cons b bs ih => exact ih _ (crcByte_lt reg b h)

theorem computeCRC_lt (bytes : List Nat) : computeCRC bytes < 2 ^ 16 :=
  foldl_crcByte_lt bytes 0xFFFF (by decide)

/-! ## Frame builders: structure of the result -/

theorem foldl_pushRegister (data cmd : List Nat) :
    data.foldl pushRegister cmd = cmd ++ registerBytes data := by
  induction data generalizing cmd with
  | nil => simp [registerBytes]
  | cons d ds ih =>
    rw [List.foldl_cons, ih]
    simp [registerBytes, pushRegister]

theorem registerBytes_length (data : List Nat) : (registerBytes data).length = 2 * data.length := by
  induction data with
  | nil => rfl
  | cons d ds ih =>
    have hc : registerBytes (d :: ds) = getFirstByte d :: getSecondByte d :: registerBytes ds := by
      simp [registerBytes]
    rw [hc]
    simp only [List.length_cons, ih]
    omega

theorem registerBytes_getElem? (data : List Nat) (i : Nat) (hi : i < data.length) :
    (registerBytes data)[2 * i]? = some (getFirstByte data[i]) ∧
      (registerBytes data)[2 * i + 1]? = some (getSecondByte data[i]) := by
  induction data generalizing i with
  | nil => simp at hi
  | cons d ds ih =>
    have hc : registerBytes (d :: ds) = getFirstByte d :: getSecondByte d :: registerBytes ds := by
      simp [registerBytes]
    rw [hc]
    cases i with
    | zero => simp
    | succ j =>
      have hj : j < ds.length := by simpa using hi
      have h2 : 2 * (j + 1) = 2 * j + 1 + 1 := by omega
      rw [h2]
      simpa using ih j hj

theorem createReadCommand_eq (crcOf : List Nat → Nat) (s r n : Nat) :
    createReadCommand crcOf s r n =
      readHeader s r n ++
        [getFirstByte (crcOf (readHeader s r n)), getSecondByte (crcOf (readHeader s r n))] := by
  simp [createReadCommand, readHeader]

theorem createWriteCommand_eq (crcOf : List Nat → Nat) (s r : Nat) (data : List Nat) :
    createWriteCommand crcOf s r data =
      (writeHeader s r data ++ registerBytes data) ++
        [getFirstByte (crcOf (writeHeader s r data ++ registerBytes data)),
          getSecondByte (crcOf (writeHeader s r data ++ registerBytes data))] := by
  simp only [createWriteCommand, foldl_pushRegister, writeHeader, List.append_assoc,
    List.singleton_append]

theorem writeHeader_length (s r : Nat) (data : List Nat) : (writeHeader s r data).length = 7 := rfl

theorem readHeader_length (s r n : Nat) : (readHeader s r n).length = 5 := rfl

/-- Splitting a list that ends in two known elements at two before its end. -/
theorem split_last_two (body : List Nat) (a b : Nat) :
    (body ++ [a, b]).take ((body ++ [a, b]).length - 2) = body ∧
      (body ++ [a, b]).drop ((body ++ [a, b]).length - 2) = [a, b] := by
  have hl : (body ++ [a, b]).length - 2 = body.length := by simp
  rw [hl]
  exact ⟨List.take_left body [a, b], List.drop_left body [a, b]⟩

/-! ## Sample evaluations -/

set_option maxRecDepth 8192

theorem readCommand_sample :
    createReadCommand computeCRC 0x09 0x07D0 0x06 = [9, 3, 7, 208, 6, 70, 148] := by rfl

theorem computeCRC_sample : computeCRC [9, 3, 7, 208, 6] = 18068 := by rfl

theorem activateFrame_sample :
    createWriteCommand computeCRC 0x09 0x03E8 [0x0100, 0x0000, 0x0000] =
      [9, 16, 3, 232, 0, 3, 6, 1, 0, 0, 0, 0, 0, 225, 114] := by rfl

theorem deactivateFrame_sample :
    createWriteCommand computeCRC 0x09 0x03E8 [0x0000, 0x0000, 0x0000] =
      [9, 16, 3, 232, 0, 3, 6, 0, 0, 0, 0, 0, 0, 48, 115] := by rfl

/-! ## Frame lengths -/

/-- C2, as stated, fails: the read frame for slave `0x09`, register `0x07D0` and count `0x06`
is `[9, 3, 7, 208, 6, 70, 148]`, which has 7 bytes and not 8. -/
theorem read_frame_eight_bytes_refuted :
    createReadCommand computeCRC 0x09 0x07D0 0x06 = [9, 3, 7, 208, 6, 70, 148] ∧
      (createReadCommand computeCRC 0x09 0x07D0 0x06).length ≠ 8 := by
  refine ⟨readCommand_sample, ?_⟩
  rw [readCommand_sample]
  decide

/-- C2, amended: for every checksum function, slave id, first register and register count,
`createReadCommand` returns a frame of exactly 7 bytes (5 header bytes and 2 checksum
bytes). -/
theorem createReadCommand_length (crcOf : List Nat → Nat) (slave_id first_register
    num_registers : Nat) :
    (createReadCommand crcOf slave_id first_register num_registers).length = 7 := by
  rw [createReadCommand_eq]
  rfl

/-- C4: for every checksum function, slave id, first register and list `data`, the frame of
`createWriteCommand` has exactly `7 + 2 * data.length + 2` bytes. -/
theorem createWriteCommand_length (crcOf : List Nat → Nat) (slave_id first_register : Nat)
    (data : List Nat) :
    (createWriteCommand crcOf slave_id first_register data).length = 7 + 2 * data.length + 2 := by
  rw [createWriteCommand_eq, List.length_append, List.length_append, writeHeader_length,
    registerBytes_length]
  rfl

/-! ## Write-frame layout -/

/-- C3: for every slave id, every 16-bit first register and every list `data` of 16-bit values
with `n = data.length ≤ 127`, the write frame starts with the seven bytes
`[slave_id, 0x10, first_register >> 8, first_register & 0xFF, n >> 8, n & 0xFF, 2 * n]`, and
for every `i < n` the bytes at positions `7 + 2 * i` and `8 + 2 * i` are `data[i] >> 8` and
`data[i] & 0xFF`. The layout also holds for the empty list, so non-emptiness is not
assumed. -/
theorem createWriteCommand_layout (crcOf : List Nat → Nat) (slave_id first_register : Nat)
    (data : List Nat) (hreg : first_register < 2 ^ 16) (hdata : ∀ d ∈ data, d < 2 ^ 16)
    (hlen : data.length ≤ 127) :
    (createWriteCommand crcOf slave_id first_register data).take 7 =
        [slave_id, 0x10, first_register >>> 8, first_register &&& 0xFF,
          data.length >>> 8, data.length &&& 0xFF, 2 * data.length] ∧
      ∀ (i : Nat) (hi : i < data.length),
        (createWriteCommand crcOf slave_id first_register data)[7 + 2 * i]? =
            some (data[i] >>> 8) ∧
          (createWriteCommand crcOf slave_id first_register data)[8 + 2 * i]? =
            some (data[i] &&& 0xFF) := by
  have hn : data.length % 2 ^ 16 = data.length := Nat.mod_eq_of_lt (by omega)
  have hn16 : data.length < 2 ^ 16 := by omega
  have hb : (2 * data.length) % 2 ^ 8 = 2 * data.length := Nat.mod_eq_of_lt (by omega)
  rw [createWriteCommand_eq]
  constructor
  · rw [List.append_assoc, List.take_left' (writeHeader_length _ _ _)]
    simp only [writeHeader, hn, hb, getFirstByte_eq_shift _ hreg, getFirstByte_eq_shift _ hn16,
      getSecondByte_eq_and, kWriteFunctionCode]
  · intro i hi
    obtain ⟨h1, h2⟩ := registerBytes_getElem? data i hi
    have hd : data[i] < 2 ^ 16 := hdata _ (List.getElem_mem hi)
    have hl : (writeHeader slave_id first_register data).length = 7 := writeHeader_length _ _ _
    have hp : (registerBytes data).length = 2 * data.length := registerBytes_length data
    constructor
    · rw [List.getElem?_append_left (by rw [List.length_append, hl, hp]; omega),
        List.getElem?_append_right (by rw [hl]; omega), hl]
      have : 7 + 2 * i - 7 = 2 * i := by omega
      rw [this, h1, getFirstByte_eq_shift _ hd]
    · rw [List.getElem?_append_left (by rw [List.length_append, hl, hp]; omega),
        List.getElem?_append_right (by rw [hl]; omega), hl]
      have : 8 + 2 * i - 7 = 2 * i + 1 := by omega
      rw [this, h2, getSecondByte_eq_and]

/-- C3 at the activation payload `[0x0100, 0x0000, 0x0000]` written to register `0x03E8` of
slave `0x09`. -/
theorem createWriteCommand_layout_witness :
    (createWriteCommand computeCRC 0x09 0x03E8 [0x0100, 0, 0]).take 7 =
        [0x09, 0x10, 0x03E8 >>> 8, 0x03E8 &&& 0xFF,
          [0x0100, 0, 0].length >>> 8, [0x0100, 0, 0].length &&& 0xFF,
          2 * [0x0100, 0, 0].length] ∧
      ∀ (i : Nat) (hi : i < [0x0100, 0, 0].length),
        (createWriteCommand computeCRC 0x09 0x03E8 [0x0100, 0, 0])[7 + 2 * i]? =
            some ([0x0100, 0, 0][i] >>> 8) ∧
          (createWriteCommand computeCRC 0x09 0x03E8 [0x0100, 0, 0])[8 + 2 * i]? =
            some ([0x0100, 0, 0][i] &&& 0xFF) :=
  createWriteCommand_layout computeCRC 0x09 0x03E8 [0x0100, 0, 0] (by decide) (by decide)
    (by decide)

/-! ## Transactions: what reaches the port -/

theorem readResponse_calls {σ : Type} (port : Serial σ) (w : World σ) (k : Nat) :
    (readResponse port w k).1.calls = w.calls ++ [PortCall.read k] := by
  unfold readResponse
  dsimp only
  split <;> rfl

theorem readResponse_result {σ : Type} (port : Serial σ) (w : World σ) (k : Nat) :
    (readResponse port w k).2 = (port.read w.port k).2.1 := by
  unfold readResponse
  dsimp only
  split <;> exact List.nil_append _

theorem readResponse_port {σ : Type} (port : Serial σ) (w : World σ) (k : Nat) :
    (readResponse port w k).1.port = (port.read w.port k).1 := by
  unfold readResponse
  dsimp only
  split <;> rfl

theorem readResponse_cerr {σ : Type} (port : Serial σ) (w : World σ) (k : Nat) :
    (readResponse port w k).1.cerr =
      w.cerr ++ (if (port.read w.port k).2.2 = k then []
        else [Diagnostic.shortRead k (port.read w.port k).2.2]) := by
  unfold readResponse
  dsimp only
  by_cases h : (port.read w.port k).2.2 = k
  · simp [h]
  · simp [h]

theorem activateGripper_calls {σ : Type} (crcOf : List Nat → Nat) (port : Serial σ)
    (self : RobotiqGripperInterface) (w : World σ) :
    (activateGripper crcOf port self w).1.calls =
      w.calls ++
        (if (port.write w.port (activateFrame crcOf self.slave_id_)).2 =
            (activateFrame crcOf self.slave_id_).length
          then [PortCall.write (activateFrame crcOf self.slave_id_), PortCall.read 8]
          else [PortCall.write (activateFrame crcOf self.slave_id_)]) := by
  unfold activateGripper
  dsimp only
  by_cases h : (port.write w.port (activateFrame crcOf self.slave_id_)).2 =
      (activateFrame crcOf self.slave_id_).length
  · have h1 := h
    unfold activateFrame at h1
    rw [if_pos h, if_neg (not_not_intro h1), readResponse_calls]
    simp [activateFrame]
  · have h1 := h
    unfold activateFrame at h1
    rw [if_neg h, if_pos h1]
    rfl

theorem deactivateGripper_calls {σ : Type} (crcOf : List Nat → Nat) (port : Serial σ)
    (self : RobotiqGripperInterface) (w : World σ) :
    (deactivateGripper crcOf port self w).calls =
      w.calls ++
        (if (port.write w.port (deactivateFrame crcOf self.slave_id_)).2 =
            (deactivateFrame crcOf self.slave_id_).length
          then [PortCall.write (deactivateFrame crcOf self.slave_id_), PortCall.read 8]
          else [PortCall.write (deactivateFrame crcOf self.slave_id_)]) := by
  unfold deactivateGripper
  dsimp only
  by_cases h : (port.write w.port (deactivateFrame crcOf self.slave_id_)).2 =
      (deactivateFrame crcOf self.slave_id_).length
  · have h1 := h
    unfold deactivateFrame at h1
    rw [if_pos h, if_neg (not_not_intro h1), readResponse_calls]
    simp [deactivateFrame]
  · have h1 := h
    unfold deactivateFrame at h1
    rw [if_neg h, if_pos h1]
    rfl

theorem activateGripper_cerr {σ : Type} (crcOf : List Nat → Nat) (port : Serial σ)
    (self : RobotiqGripperInterface) (w : World σ) :
    (activateGripper crcOf port self w).1.cerr =
      w.cerr ++
        (if (port.write w.port (activateFrame crcOf self.slave_id_)).2 =
            (activateFrame crcOf self.slave_id_).length
          then
            (if (port.read (port.write w.port (activateFrame crcOf self.slave_id_)).1 8).2.2 = 8
              then []
              else [Diagnostic.shortRead 8
                (port.read (port.write w.port (activateFrame crcOf self.slave_id_)).1 8).2.2])
          else [Diagnostic.shortWrite (activateFrame crcOf self.slave_id_).length
            (port.write w.port (activateFrame crcOf self.slave_id_)).2]) := by
  unfold activateGripper
  dsimp only
  by_cases h : (port.write w.port (activateFrame crcOf self.slave_id_)).2 =
      (activateFrame crcOf self.slave_id_).length
  · have h1 := h
    unfold activateFrame at h1
    rw [if_pos h, if_neg (not_not_intro h1), readResponse_cerr]
    rfl
  · have h1 := h
    unfold activateFrame at h1
    rw [if_neg h, if_pos h1]
    rfl

theorem deactivateGripper_cerr {σ : Type} (crcOf : List Nat → Nat) (port : Serial σ)
    (self : RobotiqGripperInterface) (w : World σ) :
    (deactivateGripper crcOf port self w).cerr =
      w.cerr ++
        (if (port.write w.port (deactivateFrame crcOf self.slave_id_)).2 =
            (deactivateFrame crcOf self.slave_id_).length
          then
            (if (port.read (port.write w.port (deactivateFrame crcOf self.slave_id_)).1 8).2.2 = 8
              then []
              else [Diagnostic.shortRead 8
                (port.read (port.write w.port (deactivateFrame crcOf self.slave_id_)).1 8).2.2])
          else [Diagnostic.shortWrite (deactivateFrame crcOf self.slave_id_).length
            (port.write w.port (deactivateFrame crcOf self.slave_id_)).2]) := by
  unfold deactivateGripper
  dsimp only
  by_cases h : (port.write w.port (deactivateFrame crcOf self.slave_id_)).2 =
      (deactivateFrame crcOf self.slave_id_).length
  · have h1 := h
    unfold deactivateFrame at h1
    rw [if_pos h, if_neg (not_not_intro h1), readResponse_cerr]
    rfl
  · have h1 := h
    unfold deactivateFrame at h1
    rw [if_neg h, if_pos h1]
    rfl

theorem activateGripper_port {σ : Type} (crcOf : List Nat → Nat) (port : Serial σ)
    (self : RobotiqGripperInterface) (w : World σ) :
    (activateGripper crcOf port self w).1.port =
      (if (port.write w.port (activateFrame crcOf self.slave_id_)).2 =
          (activateFrame crcOf self.slave_id_).length
        then (port.read (port.write w.port (activateFrame crcOf self.slave_id_)).1 8).1
        else (port.write w.port (activateFrame crcOf self.slave_id_)).1) := by
  unfold activateGripper
  dsimp only
  by_cases h : (port.write w.port (activateFrame crcOf self.slave_id_)).2 =
      (activateFrame crcOf self.slave_id_).length
  · have h1 := h
    unfold activateFrame at h1
    rw [if_pos h, if_neg (not_not_intro h1), readResponse_port]
    rfl
  · have h1 := h
    unfold activateFrame at h1
    rw [if_neg h, if_pos h1]
    rfl

theorem deactivateGripper_port {σ : Type} (crcOf : List Nat → Nat) (port : Serial σ)
    (self : RobotiqGripperInterface) (w : World σ) :
    (deactivateGripper crcOf port self w).port =
      (if (port.write w.port (deactivateFrame crcOf self.slave_id_)).2 =
          (deactivateFrame crcOf self.slave_id_).length
        then (port.read (port.write w.port (deactivateFrame crcOf self.slave_id_)).1 8).1
        else (port.write w.port (deactivateFrame crcOf self.slave_id_)).1) := by
  unfold deactivateGripper
  dsimp only
  by_cases h : (port.write w.port (deactivateFrame crcOf self.slave_id_)).2 =
      (deactivateFrame crcOf self.slave_id_).length
  · have h1 := h
    unfold deactivateFrame at h1
    rw [if_pos h, if_neg (not_not_intro h1), readResponse_port]
    rfl
  · have h1 := h
    unfold deactivateFrame at h1
    rw [if_neg h, if_pos h1]
    rfl

theorem activateGripper_result {σ : Type} (crcOf : List Nat → Nat) (port : Serial σ)
    (self : RobotiqGripperInterface) (w : World σ) :
    (activateGripper crcOf port self w).2 =
      decide ((port.write w.port (activateFrame crcOf self.slave_id_)).2 =
        (activateFrame crcOf self.slave_id_).length) := by
  unfold activateGripper
  dsimp only
  by_cases h : (port.write w.port (activateFrame crcOf self.slave_id_)).2 =
      (activateFrame crcOf self.slave_id_).length
  · have h1 := h
    unfold activateFrame at h1
    rw [if_neg (not_not_intro h1), decide_eq_true h]
  · have h1 := h
    unfold activateFrame at h1
    rw [if_pos h1, decide_eq_false h]

theorem activateFrame_eq (crcOf : List Nat → Nat) (s : Nat) :
    activateFrame crcOf s =
      [s, 0x10, 0x03, 0xE8, 0x00, 0x03, 0x06, 0x01, 0x00, 0x00, 0x00, 0x00, 0x00] ++
        [getFirstByte (crcOf
            [s, 0x10, 0x03, 0xE8, 0x00, 0x03, 0x06, 0x01, 0x00, 0x00, 0x00, 0x00, 0x00]),
          getSecondByte (crcOf
            [s, 0x10, 0x03, 0xE8, 0x00, 0x03, 0x06, 0x01, 0x00, 0x00, 0x00, 0x00, 0x00])] := by
  unfold activateFrame
  rw [createWriteCommand_eq]
  rfl

theorem deactivateFrame_eq (crcOf : List Nat → Nat) (s : Nat) :
    deactivateFrame crcOf s =
      [s, 0x10, 0x03, 0xE8, 0x00, 0x03, 0x06, 0x00, 0x00, 0x00, 0x00, 0x00, 0x00] ++
        [getFirstByte (crcOf
            [s, 0x10, 0x03, 0xE8, 0x00, 0x03, 0x06, 0x00, 0x00, 0x00, 0x00, 0x00, 0x00]),
          getSecondByte (crcOf
            [s, 0x10, 0x03, 0xE8, 0x00, 0x03, 0x06, 0x00, 0x00, 0x00, 0x00, 0x00, 0x00])] := by
  unfold deactivateFrame
  rw [createWriteCommand_eq]
  rfl

/-! ## Activate and deactivate -/

/-- C6, as stated, fails. On the port that writes nothing (its write reports 0 bytes for the
15-byte frame), `activateGripper` and `deactivateGripper` of the interface with slave id
`0x09` each make a single call on the port, the write; no read follows. -/
theorem short_write_still_reads_refuted :
    (activateGripper computeCRC deadPort
        (RobotiqGripperInterface.new computeCRC true 0x09 World.init).2 World.init).1.calls =
        [PortCall.write [9, 16, 3, 232, 0, 3, 6, 1, 0, 0, 0, 0, 0, 225, 114]] ∧
      (deactivateGripper computeCRC deadPort
        (RobotiqGripperInterface.new computeCRC true 0x09 World.init).2 World.init).calls =
        [PortCall.write [9, 16, 3, 232, 0, 3, 6, 0, 0, 0, 0, 0, 0, 48, 115]] ∧
      [PortCall.write [9, 16, 3, 232, 0, 3, 6, 1, 0, 0, 0, 0, 0, 225, 114]] ≠
        [PortCall.write [9, 16, 3, 232, 0, 3, 6, 1, 0, 0, 0, 0, 0, 225, 114], PortCall.read 8] ∧
      [PortCall.write [9, 16, 3, 232, 0, 3, 6, 0, 0, 0, 0, 0, 0, 48, 115]] ≠
        [PortCall.write [9, 16, 3, 232, 0, 3, 6, 0, 0, 0, 0, 0, 0, 48, 115], PortCall.read 8] := by
  refine ⟨?_, ?_, by simp, by simp⟩
  · have hf : activateFrame computeCRC
        (RobotiqGripperInterface.new computeCRC true 0x09 World.init).2.slave_id_ =
        [9, 16, 3, 232, 0, 3, 6, 1, 0, 0, 0, 0, 0, 225, 114] := activateFrame_sample
    rw [activateGripper_calls, hf]
    rfl
  · have hf : deactivateFrame computeCRC
        (RobotiqGripperInterface.new computeCRC true 0x09 World.init).2.slave_id_ =
        [9, 16, 3, 232, 0, 3, 6, 0, 0, 0, 0, 0, 0, 48, 115] := deactivateFrame_sample
    rw [deactivateGripper_calls, hf]
    rfl

/-- C6, amended: for every port behaviour, each of `activateGripper` and `deactivateGripper`
performs exactly one write of its frame; when the write reports a count equal to the frame
length it is followed by exactly one read requesting 8 bytes, and when the write reports any
other count (a short write) the discrepancy is reported, as one line on `std::cerr` naming
the frame length and the count written, and the operation returns without a read: the write
is the only call on the port, the port is left in the state the write put it in, and
`activateGripper` returns false. After a complete write the only line that can be printed is
the one reporting a short read. -/
theorem transaction_calls {σ : Type} (crcOf : List Nat → Nat) (port : Serial σ)
    (self : RobotiqGripperInterface) (w : World σ) :
    ((activateGripper crcOf port self w).1.calls =
        w.calls ++
          (if (port.write w.port (activateFrame crcOf self.slave_id_)).2 =
              (activateFrame crcOf self.slave_id_).length
            then [PortCall.write (activateFrame crcOf self.slave_id_), PortCall.read 8]
            else [PortCall.write (activateFrame crcOf self.slave_id_)]) ∧
      (activateGripper crcOf port self w).1.cerr =
        w.cerr ++
          (if (port.write w.port (activateFrame crcOf self.slave_id_)).2 =
              (activateFrame crcOf self.slave_id_).length
            then
              (if (port.read (port.write w.port (activateFrame crcOf self.slave_id_)).1 8).2.2 = 8
                then []
                else [Diagnostic.shortRead 8
                  (port.read (port.write w.port (activateFrame crcOf self.slave_id_)).1 8).2.2])
            else [Diagnostic.shortWrite (activateFrame crcOf self.slave_id_).length
              (port.write w.port (activateFrame crcOf self.slave_id_)).2]) ∧
      (activateGripper crcOf port self w).1.port =
        (if (port.write w.port (activateFrame crcOf self.slave_id_)).2 =
            (activateFrame crcOf self.slave_id_).length
          then (port.read (port.write w.port (activateFrame crcOf self.slave_id_)).1 8).1
          else (port.write w.port (activateFrame crcOf self.slave_id_)).1) ∧
      (activateGripper crcOf port self w).2 =
        decide ((port.write w.port (activateFrame crcOf self.slave_id_)).2 =
          (activateFrame crcOf self.slave_id_).length)) ∧
    ((deactivateGripper crcOf port self w).calls =
        w.calls ++
          (if (port.write w.port (deactivateFrame crcOf self.slave_id_)).2 =
              (deactivateFrame crcOf self.slave_id_).length
            then [PortCall.write (deactivateFrame crcOf self.slave_id_), PortCall.read 8]
            else [PortCall.write (deactivateFrame crcOf self.slave_id_)]) ∧
      (deactivateGripper crcOf port self w).cerr =
        w.cerr ++
          (if (port.write w.port (deactivateFrame crcOf self.slave_id_)).2 =
              (deactivateFrame crcOf self.slave_id_).length
            then
              (if (port.read (port.write w.port (deactivateFrame crcOf self.slave_id_)).1 8).2.2
                  = 8
                then []
                else [Diagnostic.shortRead 8
                  (port.read (port.write w.port
                    (deactivateFrame crcOf self.slave_id_)).1 8).2.2])
            else [Diagnostic.shortWrite (deactivateFrame crcOf self.slave_id_).length
              (port.write w.port (deactivateFrame crcOf self.slave_id_)).2]) ∧
      (deactivateGripper crcOf port self w).port =
        (if (port.write w.port (deactivateFrame crcOf self.slave_id_)).2 =
            (deactivateFrame crcOf self.slave_id_).length
          then (port.read (port.write w.port (deactivateFrame crcOf self.slave_id_)).1 8).1
          else (port.write w.port (deactivateFrame crcOf self.slave_id_)).1)) :=
  ⟨⟨activateGripper_calls crcOf port self w, activateGripper_cerr crcOf port self w,
      activateGripper_port crcOf port self w, activateGripper_result crcOf port self w⟩,
    ⟨deactivateGripper_calls crcOf port self w, deactivateGripper_cerr crcOf port self w,
      deactivateGripper_port crcOf port self w⟩⟩

/-- C7: for every slave id `s`, the first call `deactivateGripper` makes on the port is the
write of `createWriteCommand(0x03E8, [0x0000, 0x0000, 0x0000])`. The first 13 bytes of that
frame are `[s, 0x10, 0x03, 0xE8, 0x00, 0x03, 0x06, 0x00, 0x00, 0x00, 0x00, 0x00, 0x00]`; the
frame is as long as the frame `createWriteCommand(0x03E8, [0x0100, 0x0000, 0x0000])` that
`activateGripper` writes first, and the first 13 bytes of the activate frame are those of the
deactivate frame with the byte at index 7 changed from `0x00` to `0x01`. -/
theorem deactivateGripper_frame {σ : Type} (crcOf : List Nat → Nat) (port : Serial σ)
    (self : RobotiqGripperInterface) (w : World σ) :
    ((deactivateGripper crcOf port self w).calls.drop w.calls.length).head? =
        some (PortCall.write
          (createWriteCommand crcOf self.slave_id_ 0x03E8 [0x0000, 0x0000, 0x0000])) ∧
      ((activateGripper crcOf port self w).1.calls.drop w.calls.length).head? =
        some (PortCall.write
          (createWriteCommand crcOf self.slave_id_ 0x03E8 [0x0100, 0x0000, 0x0000])) ∧
      (createWriteCommand crcOf self.slave_id_ 0x03E8 [0x0000, 0x0000, 0x0000]).take 13 =
        [self.slave_id_, 0x10, 0x03, 0xE8, 0x00, 0x03, 0x06,
          0x00, 0x00, 0x00, 0x00, 0x00, 0x00] ∧
      (createWriteCommand crcOf self.slave_id_ 0x03E8 [0x0000, 0x0000, 0x0000]).length =
        (createWriteCommand crcOf self.slave_id_ 0x03E8 [0x0100, 0x0000, 0x0000]).length ∧
      (createWriteCommand crcOf self.slave_id_ 0x03E8 [0x0000, 0x0000, 0x0000])[7]? = some 0x00 ∧
      (createWriteCommand crcOf self.slave_id_ 0x03E8 [0x0100, 0x0000, 0x0000]).take 13 =
        ((createWriteCommand crcOf self.slave_id_ 0x03E8 [0x0000, 0x0000, 0x0000]).take 13).set
          7 0x01 := by
  have hd := deactivateFrame_eq crcOf self.slave_id_
  have ha := activateFrame_eq crcOf self.slave_id_
  unfold deactivateFrame at hd
  unfold activateFrame at ha
  have hk : kActionRequestRegister = 0x03E8 := rfl
  rw [hk] at hd ha
  refine ⟨?_, ?_, ?_, ?_, ?_, ?_⟩
  · rw [deactivateGripper_calls, List.drop_left]
    split <;> rfl
  · rw [activateGripper_calls, List.drop_left]
    split <;> rfl
  · rw [hd]
    rfl
  · rw [hd, ha]
    rfl
  · rw [hd]
    rfl
  · rw [hd, ha]
    rfl

/-! ## Reading a response -/

/-- C8: for every requested size `k` and every port behaviour, `readResponse(k)` makes exactly
one call on the port, a read requesting `k` bytes, and returns exactly the bytes that read
delivered, whatever count the read reported; a count different from `k` only adds one line to
`std::cerr`. -/
theorem readResponse_single_read {σ : Type} (port : Serial σ) (w : World σ) (k : Nat) :
    (readResponse port w k).1.calls = w.calls ++ [PortCall.read k] ∧
      (readResponse port w k).2 = (port.read w.port k).2.1 ∧
      (readResponse port w k).1.port = (port.read w.port k).1 ∧
      (readResponse port w k).1.cerr =
        w.cerr ++ (if (port.read w.port k).2.2 = k then []
          else [Diagnostic.shortRead k (port.read w.port k).2.2]) :=
  ⟨readResponse_calls port w k, readResponse_result port w k, readResponse_port port w k,
    readResponse_cerr port w k⟩

/-! ## Read-frame layout and byte order -/

/-- C9: for every slave id, every 16-bit first register and every register count, the first
5 bytes of the read frame are
`[slave_id, 0x03, first_register >> 8, first_register & 0xFF, num_registers]`, and the two
bytes after them are the bytes of the checksum computed over exactly these 5 bytes. -/
theorem createReadCommand_layout (crcOf : List Nat → Nat) (slave_id first_register
    num_registers : Nat) (hreg : first_register < 2 ^ 16) :
    (createReadCommand crcOf slave_id first_register num_registers).take 5 =
        [slave_id, 0x03, first_register >>> 8, first_register &&& 0xFF, num_registers] ∧
      (createReadCommand crcOf slave_id first_register num_registers).drop 5 =
        [getFirstByte (crcOf
            [slave_id, 0x03, first_register >>> 8, first_register &&& 0xFF, num_registers]),
          getSecondByte (crcOf
            [slave_id, 0x03, first_register >>> 8, first_register &&& 0xFF, num_registers])] := by
  have hh : readHeader slave_id first_register num_registers =
      [slave_id, 0x03, first_register >>> 8, first_register &&& 0xFF, num_registers] := by
    simp only [readHeader, getFirstByte_eq_shift _ hreg, getSecondByte_eq_and, kReadFunctionCode]
  rw [createReadCommand_eq, hh]
  exact ⟨rfl, rfl⟩

/-- C9 at the read command the constructor stores: slave `0x09`, register `0x07D0`, count
`0x06`. -/
theorem createReadCommand_layout_witness :
    (createReadCommand computeCRC 0x09 0x07D0 0x06).take 5 =
        [0x09, 0x03, 0x07D0 >>> 8, 0x07D0 &&& 0xFF, 0x06] ∧
      (createReadCommand computeCRC 0x09 0x07D0 0x06).drop 5 =
        [getFirstByte (computeCRC [0x09, 0x03, 0x07D0 >>> 8, 0x07D0 &&& 0xFF, 0x06]),
          getSecondByte (computeCRC [0x09, 0x03, 0x07D0 >>> 8, 0x07D0 &&& 0xFF, 0x06])] :=
  createReadCommand_layout computeCRC 0x09 0x07D0 0x06 (by decide)

/-- C10: for every 16-bit value `v`, `getFirstByte v = v >> 8`, `getSecondByte v = v & 0xFF`
and `(getFirstByte v << 8) | getSecondByte v = v`; and the bytes at indices 2 and 3 of every
read frame and of every write frame built for first register `v` reassemble to `v`. -/
theorem byte_order_round_trip (crcOf : List Nat → Nat) (slave_id num_registers : Nat)
    (data : List Nat) (v : Nat) (hv : v < 2 ^ 16) :
    getFirstByte v = v >>> 8 ∧ getSecondByte v = v &&& 0xFF ∧
      (getFirstByte v <<< 8) ||| getSecondByte v = v ∧
      (∃ hi lo : Nat, (createReadCommand crcOf slave_id v num_registers)[2]? = some hi ∧
        (createReadCommand crcOf slave_id v num_registers)[3]? = some lo ∧
        hi = v >>> 8 ∧ lo = v &&& 0xFF ∧ (hi <<< 8) ||| lo = v) ∧
      (∃ hi lo : Nat, (createWriteCommand crcOf slave_id v data)[2]? = some hi ∧
        (createWriteCommand crcOf slave_id v data)[3]? = some lo ∧
        hi = v >>> 8 ∧ lo = v &&& 0xFF ∧ (hi <<< 8) ||| lo = v) := by
  refine ⟨getFirstByte_eq_shift v hv, getSecondByte_eq_and v, bytes_reassemble v hv, ?_, ?_⟩
  · refine ⟨getFirstByte v, getSecondByte v, ?_, ?_, getFirstByte_eq_shift v hv,
      getSecondByte_eq_and v, bytes_reassemble v hv⟩
    · rw [createReadCommand_eq]
      rfl
    · rw [createReadCommand_eq]
      rfl
  · refine ⟨getFirstByte v, getSecondByte v, ?_, ?_, getFirstByte_eq_shift v hv,
      getSecondByte_eq_and v, bytes_reassemble v hv⟩
    · rw [createWriteCommand_eq]
      rfl
    · rw [createWriteCommand_eq]
      rfl

/-- C10 at the action-request register `0x03E8`. -/
theorem byte_order_round_trip_witness :
    getFirstByte 0x03E8 = 0x03E8 >>> 8 ∧ getSecondByte 0x03E8 = 0x03E8 &&& 0xFF ∧
      (getFirstByte 0x03E8 <<< 8) ||| getSecondByte 0x03E8 = 0x03E8 ∧
      (∃ hi lo : Nat, (createReadCommand computeCRC 0x09 0x03E8 0x06)[2]? = some hi ∧
        (createReadCommand computeCRC 0x09 0x03E8 0x06)[3]? = some lo ∧
        hi = 0x03E8 >>> 8 ∧ lo = 0x03E8 &&& 0xFF ∧ (hi <<< 8) ||| lo = 0x03E8) ∧
      (∃ hi lo : Nat, (createWriteCommand computeCRC 0x09 0x03E8 [0x0100, 0, 0])[2]? = some hi ∧
        (createWriteCommand computeCRC 0x09 0x03E8 [0x0100, 0, 0])[3]? = some lo ∧
        hi = 0x03E8 >>> 8 ∧ lo = 0x03E8 &&& 0xFF ∧ (hi <<< 8) ||| lo = 0x03E8) :=
  byte_order_round_trip computeCRC 0x09 0x06 [0x0100, 0, 0] 0x03E8 (by decide)

/-! ## Further facts about transactions and frames -/

theorem activateFrame_length (crcOf : List Nat → Nat) (s : Nat) :
    (activateFrame crcOf s).length = 15 := by
  rw [activateFrame_eq]
  rfl

theorem deactivateFrame_length (crcOf : List Nat → Nat) (s : Nat) :
    (deactivateFrame crcOf s).length = 15 := by
  rw [deactivateFrame_eq]
  rfl

/-- The calls one invocation adds have one of two shapes. -/
theorem calls_shape (frame : List Nat) (c : Prop) [Decidable c] :
    ((if c then [PortCall.write frame, PortCall.read 8] else [PortCall.write frame]) =
        [PortCall.write frame] ∨
      (if c then [PortCall.write frame, PortCall.read 8] else [PortCall.write frame]) =
        [PortCall.write frame, PortCall.read 8]) ∧
      List.countP PortCall.isWrite
        (if c then [PortCall.write frame, PortCall.read 8] else [PortCall.write frame]) = 1 ∧
      List.countP PortCall.isRead
        (if c then [PortCall.write frame, PortCall.read 8] else [PortCall.write frame]) ≤ 1 ∧
      List.filterMap PortCall.frame?
        (if c then [PortCall.write frame, PortCall.read 8] else [PortCall.write frame]) =
        [frame] := by
  by_cases h : c
  · rw [if_pos h]
    exact ⟨Or.inr rfl, rfl, Nat.le_refl _, rfl⟩
  · rw [if_neg h]
    exact ⟨Or.inl rfl, rfl, Nat.zero_le _, rfl⟩

theorem pairRegisters_registerBytes (data : List Nat) (hdata : ∀ d ∈ data, d < 2 ^ 16) :
    pairRegisters (registerBytes data) = data := by
  induction data with
  | nil => rfl
  | cons d ds ih =>
    have hc : registerBytes (d :: ds) = getFirstByte d :: getSecondByte d :: registerBytes ds := by
      simp [registerBytes]
    have hd : d < 2 ^ 16 := hdata d (List.mem_cons_self d ds)
    have hds : ∀ x ∈ ds, x < 2 ^ 16 := fun x hx => hdata x (List.mem_cons_of_mem d hx)
    rw [hc, pairRegisters, bytes_reassemble d hd, ih hds]

theorem createWriteCommand_payload (crcOf : List Nat → Nat) (s r : Nat) (data : List Nat) :
    ((createWriteCommand crcOf s r data).drop 7).take
        ((createWriteCommand crcOf s r data).length - 7 - 2) = registerBytes data := by
  have hlen : (createWriteCommand crcOf s r data).length - 7 - 2 = (registerBytes data).length := by
    rw [createWriteCommand_eq, List.length_append, List.length_append, writeHeader_length]
    show 7 + (registerBytes data).length + 2 - 7 - 2 = (registerBytes data).length
    omega
  rw [hlen, createWriteCommand_eq, List.append_assoc,
    List.drop_left' (writeHeader_length s r data), List.take_left]

theorem decodeWriteCommand_createWriteCommand (crcOf : List Nat → Nat) (s r : Nat)
    (data : List Nat) (hr : r < 2 ^ 16) (hdata : ∀ d ∈ data, d < 2 ^ 16) :
    decodeWriteCommand (createWriteCommand crcOf s r data) = (s, r, data) := by
  unfold decodeWriteCommand
  rw [createWriteCommand_payload, pairRegisters_registerBytes data hdata]
  have h0 : (createWriteCommand crcOf s r data).getD 0 0 = s := by
    rw [createWriteCommand_eq]
    rfl
  have h2 : (createWriteCommand crcOf s r data).getD 2 0 = getFirstByte r := by
    rw [createWriteCommand_eq]
    rfl
  have h3 : (createWriteCommand crcOf s r data).getD 3 0 = getSecondByte r := by
    rw [createWriteCommand_eq]
    rfl
  rw [h0, h2, h3, bytes_reassemble r hr]

/-! ## No retry, idempotence and the result of activation -/

/-- C11: for every port behaviour (full, short or zero-length writes and reads), the calls
one invocation of `activateGripper` or of `deactivateGripper` adds are either a single write
or a write followed by a single read of 8 bytes; so there is at most one write and at most
one read, the read comes after the write, and no second write or read is ever made. -/
theorem no_automatic_retry {σ : Type} (crcOf : List Nat → Nat) (port : Serial σ)
    (self : RobotiqGripperInterface) (w : World σ) :
    ((∃ frame : List Nat,
        (activateGripper crcOf port self w).1.calls.drop w.calls.length =
            [PortCall.write frame] ∨
          (activateGripper crcOf port self w).1.calls.drop w.calls.length =
            [PortCall.write frame, PortCall.read 8]) ∧
      List.countP PortCall.isWrite
        ((activateGripper crcOf port self w).1.calls.drop w.calls.length) ≤ 1 ∧
      List.countP PortCall.isRead
        ((activateGripper crcOf port self w).1.calls.drop w.calls.length) ≤ 1) ∧
    ((∃ frame : List Nat,
        (deactivateGripper crcOf port self w).calls.drop w.calls.length =
            [PortCall.write frame] ∨
          (deactivateGripper crcOf port self w).calls.drop w.calls.length =
            [PortCall.write frame, PortCall.read 8]) ∧
      List.countP PortCall.isWrite
        ((deactivateGripper crcOf port self w).calls.drop w.calls.length) ≤ 1 ∧
      List.countP PortCall.isRead
        ((deactivateGripper crcOf port self w).calls.drop w.calls.length) ≤ 1) := by
  constructor
  · rw [activateGripper_calls, List.drop_left]
    obtain ⟨hshape, hw, hr, _⟩ := calls_shape (activateFrame crcOf self.slave_id_)
      ((port.write w.port (activateFrame crcOf self.slave_id_)).2 =
        (activateFrame crcOf self.slave_id_).length)
    exact ⟨⟨_, hshape⟩, le_of_eq hw, hr⟩
  · rw [deactivateGripper_calls, List.drop_left]
    obtain ⟨hshape, hw, hr, _⟩ := calls_shape (deactivateFrame crcOf self.slave_id_)
      ((port.write w.port (deactivateFrame crcOf self.slave_id_)).2 =
        (deactivateFrame crcOf self.slave_id_).length)
    exact ⟨⟨_, hshape⟩, le_of_eq hw, hr⟩

/-- C12: for every slave id and every port behaviour, the frames handed to the port's write
by two successive calls of `deactivateGripper` are the same frame twice, namely
`createWriteCommand(0x03E8, [0x0000, 0x0000, 0x0000])` for the interface's slave id; and on
any other port, in any other state and after any other history, an interface with the same
slave id hands over that same frame. -/
theorem deactivateGripper_idempotent {σ : Type} (crcOf : List Nat → Nat) (port : Serial σ)
    (self : RobotiqGripperInterface) (w : World σ) :
    List.filterMap PortCall.frame?
        ((deactivateGripper crcOf port self
          (deactivateGripper crcOf port self w)).calls.drop w.calls.length) =
        [createWriteCommand crcOf self.slave_id_ 0x03E8 [0x0000, 0x0000, 0x0000],
          createWriteCommand crcOf self.slave_id_ 0x03E8 [0x0000, 0x0000, 0x0000]] ∧
      ∀ {τ : Type} (port2 : Serial τ) (w2 : World τ) (read_command : List Nat),
        List.filterMap PortCall.frame?
          ((deactivateGripper crcOf port2
            (RobotiqGripperInterface.mk self.slave_id_ read_command) w2).calls.drop
              w2.calls.length) =
          [createWriteCommand crcOf self.slave_id_ 0x03E8 [0x0000, 0x0000, 0x0000]] := by
  have hone : ∀ {τ : Type} (p : Serial τ) (x : World τ) (me : RobotiqGripperInterface),
      ∃ added : List PortCall,
        (deactivateGripper crcOf p me x).calls = x.calls ++ added ∧
          List.filterMap PortCall.frame? added = [deactivateFrame crcOf me.slave_id_] := by
    intro τ p x me
    obtain ⟨_, _, _, hf⟩ := calls_shape (deactivateFrame crcOf me.slave_id_)
      ((p.write x.port (deactivateFrame crcOf me.slave_id_)).2 =
        (deactivateFrame crcOf me.slave_id_).length)
    exact ⟨_, deactivateGripper_calls crcOf p me x, hf⟩
  constructor
  · obtain ⟨a1, h1, f1⟩ := hone port w self
    obtain ⟨a2, h2, f2⟩ := hone port (deactivateGripper crcOf port self w) self
    rw [h2, h1, List.append_assoc, List.drop_left, List.filterMap_append, f1, f2]
    rfl
  · intro τ port2 w2 read_command
    obtain ⟨a, h, f⟩ := hone port2 w2 (RobotiqGripperInterface.mk self.slave_id_ read_command)
    rw [h, List.drop_left, f]
    rfl

/-- C13: for every port behaviour, `activateGripper` returns true if and only if the port's
write reported a count equal to the length of the frame, which is 15; when it returns false
the write is the only call made, and when it returns true the write is followed by the read
of 8 bytes. The result does not depend on what the read reports or delivers. -/
theorem activateGripper_returns {σ : Type} (crcOf : List Nat → Nat) (port : Serial σ)
    (self : RobotiqGripperInterface) (w : World σ) :
    ((activateGripper crcOf port self w).2 = true ↔
        (port.write w.port
          (createWriteCommand crcOf self.slave_id_ 0x03E8 [0x0100, 0x0000, 0x0000])).2 = 15) ∧
      (createWriteCommand crcOf self.slave_id_ 0x03E8 [0x0100, 0x0000, 0x0000]).length = 15 ∧
      (activateGripper crcOf port self w).1.calls =
        w.calls ++
          (if (activateGripper crcOf port self w).2 = true
            then [PortCall.write
                (createWriteCommand crcOf self.slave_id_ 0x03E8 [0x0100, 0x0000, 0x0000]),
              PortCall.read 8]
            else [PortCall.write
                (createWriteCommand crcOf self.slave_id_ 0x03E8 [0x0100, 0x0000, 0x0000])]) := by
  have hres := activateGripper_result crcOf port self w
  have hlen := activateFrame_length crcOf self.slave_id_
  have hcalls := activateGripper_calls crcOf port self w
  rw [hlen] at hres hcalls
  have hfr : activateFrame crcOf self.slave_id_ =
      createWriteCommand crcOf self.slave_id_ 0x03E8 [0x0100, 0x0000, 0x0000] := rfl
  rw [hfr] at hres hcalls hlen
  refine ⟨?_, hlen, ?_⟩
  · rw [hres, decide_eq_true_iff]
  · rw [hcalls, hres]
    simp only [decide_eq_true_eq]

/-! ## Checksum wire order, count fields, injectivity and the read template -/

/-- C14: for every frame `f` of length `n` produced by `createReadCommand` or by
`createWriteCommand`, and every 16-bit checksum function, the bytes `f[n-2]` and `f[n-1]`
exist and `(f[n-2] << 8) | f[n-1]` is exactly the checksum of the first `n - 2` bytes
of `f`. -/
theorem crc_wire_order (crcOf : List Nat → Nat) (hcrc : ∀ bs, crcOf bs < 2 ^ 16) (f : List Nat)
    (hf : (∃ s r n, f = createReadCommand crcOf s r n) ∨
      (∃ s r data, f = createWriteCommand crcOf s r data)) :
    ∃ hi lo : Nat, f[f.length - 2]? = some hi ∧ f[f.length - 1]? = some lo ∧
      (hi <<< 8) ||| lo = crcOf (f.take (f.length - 2)) := by
  have key : ∀ body : List Nat,
      f = body ++ [getFirstByte (crcOf body), getSecondByte (crcOf body)] →
      ∃ hi lo : Nat, f[f.length - 2]? = some hi ∧ f[f.length - 1]? = some lo ∧
        (hi <<< 8) ||| lo = crcOf (f.take (f.length - 2)) := by
    intro body hbody
    obtain ⟨ht, _⟩ := split_last_two body (getFirstByte (crcOf body)) (getSecondByte (crcOf body))
    rw [← hbody] at ht
    have hlen : f.length = body.length + 2 := by
      rw [hbody, List.length_append]
      rfl
    have h2 : f.length - 2 = body.length := by omega
    have h1 : f.length - 1 = body.length + 1 := by omega
    refine ⟨getFirstByte (crcOf body), getSecondByte (crcOf body), ?_, ?_, ?_⟩
    · rw [h2, hbody, List.getElem?_append_right (Nat.le_refl _), Nat.sub_self]
      rfl
    · have e : body.length.succ - body.length = 1 := by omega
      rw [h1, hbody, List.getElem?_append_right (Nat.le_succ _), e]
      rfl
    · rw [ht, bytes_reassemble _ (hcrc body)]
  rcases hf with ⟨s, r, n, h⟩ | ⟨s, r, data, h⟩
  · exact key _ (h.trans (createReadCommand_eq crcOf s r n))
  · exact key _ (h.trans (createWriteCommand_eq crcOf s r data))

/-- C14 at the read command for slave `0x09`, register `0x07D0` and count `0x06`. -/
theorem crc_wire_order_witness :
    (∀ bs, computeCRC bs < 2 ^ 16) ∧
      ∃ hi lo : Nat,
        (createReadCommand computeCRC 0x09 0x07D0 0x06)[
            (createReadCommand computeCRC 0x09 0x07D0 0x06).length - 2]? = some hi ∧
          (createReadCommand computeCRC 0x09 0x07D0 0x06)[
            (createReadCommand computeCRC 0x09 0x07D0 0x06).length - 1]? = some lo ∧
          (hi <<< 8) ||| lo =
            computeCRC ((createReadCommand computeCRC 0x09 0x07D0 0x06).take
              ((createReadCommand computeCRC 0x09 0x07D0 0x06).length - 2)) :=
  ⟨computeCRC_lt,
    crc_wire_order computeCRC computeCRC_lt _ (Or.inl ⟨0x09, 0x07D0, 0x06, rfl⟩)⟩

/-- C15: for every list `data`, of any length, bytes 4 and 5 of the write frame taken
big-endian are `data.length mod 2^16`, byte 6 is `(2 * (data.length mod 2^16)) mod 2^8`, and
the frame still carries all `2 * data.length` payload bytes between the header and the two
checksum bytes. Byte 6 equals `2 * data.length` exactly when `data.length ≤ 127`; for every
list of 128 values it is 0 although 256 payload bytes follow. -/
theorem count_fields_wrap (crcOf : List Nat → Nat) (slave_id first_register : Nat)
    (data : List Nat) :
    (∃ b4 b5 b6 : Nat,
        (createWriteCommand crcOf slave_id first_register data)[4]? = some b4 ∧
        (createWriteCommand crcOf slave_id first_register data)[5]? = some b5 ∧
        (createWriteCommand crcOf slave_id first_register data)[6]? = some b6 ∧
        (b4 <<< 8) ||| b5 = data.length % 2 ^ 16 ∧
        b6 = (2 * (data.length % 2 ^ 16)) % 2 ^ 8 ∧
        (b6 = 2 * data.length ↔ data.length ≤ 127)) ∧
      ((createWriteCommand crcOf slave_id first_register data).drop 7).length =
        2 * data.length + 2 ∧
      ((createWriteCommand crcOf slave_id first_register data).drop 7).take (2 * data.length) =
        registerBytes data ∧
      ∀ values : Fin 128 → Nat,
        (createWriteCommand crcOf slave_id first_register (List.ofFn values))[6]? = some 0 ∧
          ((createWriteCommand crcOf slave_id first_register (List.ofFn values)).drop 7).length =
            256 + 2 := by
  have hdrop : ∀ d : List Nat, (createWriteCommand crcOf slave_id first_register d).drop 7 =
      registerBytes d ++
        [getFirstByte (crcOf (writeHeader slave_id first_register d ++ registerBytes d)),
          getSecondByte (crcOf (writeHeader slave_id first_register d ++ registerBytes d))] := by
    intro d
    rw [createWriteCommand_eq, List.append_assoc,
      List.drop_left' (writeHeader_length slave_id first_register d)]
  have hb6 : ∀ d : List Nat, (createWriteCommand crcOf slave_id first_register d)[6]? =
      some ((2 * (d.length % 2 ^ 16)) % 2 ^ 8) := by
    intro d
    rw [createWriteCommand_eq, List.append_assoc,
      List.getElem?_append_left (by rw [writeHeader_length]; decide)]
    rfl
  refine ⟨⟨getFirstByte (data.length % 2 ^ 16), getSecondByte (data.length % 2 ^ 16),
    (2 * (data.length % 2 ^ 16)) % 2 ^ 8, ?_, ?_, hb6 data, ?_, rfl, ?_⟩, ?_, ?_, ?_⟩
  · rw [createWriteCommand_eq]
    rfl
  · rw [createWriteCommand_eq]
    rfl
  · exact bytes_reassemble _ (Nat.mod_lt _ (by decide))
  · constructor
    · intro h
      have hlt : (2 * (data.length % 2 ^ 16)) % 2 ^ 8 < 2 ^ 8 := Nat.mod_lt _ (by decide)
      omega
    · intro h
      omega
  · rw [hdrop, List.length_append, registerBytes_length]
    rfl
  · rw [hdrop, ← registerBytes_length, List.take_left]
  · intro values
    have hl : (List.ofFn values).length = 128 := List.length_ofFn values
    refine ⟨?_, ?_⟩
    · rw [hb6, hl]
      rfl
    · rw [hdrop, List.length_append, registerBytes_length, hl]
      rfl

/-- C16: for a fixed checksum function, 16-bit registers and lists of 16-bit values of any
length, if `createWriteCommand` yields the same frame for `(slave_id1, first_register1, data1)`
and `(slave_id2, first_register2, data2)`, then the slave ids, the registers and the data are
equal; and reading the frame back (slave id from byte 0, register from bytes 2 and 3, data by
pairing the bytes from index 7 up to the last two) recovers the inputs. -/
theorem createWriteCommand_injective (crcOf : List Nat → Nat)
    (slave_id1 first_register1 : Nat) (data1 : List Nat)
    (slave_id2 first_register2 : Nat) (data2 : List Nat)
    (hr1 : first_register1 < 2 ^ 16) (hd1 : ∀ d ∈ data1, d < 2 ^ 16)
    (hr2 : first_register2 < 2 ^ 16) (hd2 : ∀ d ∈ data2, d < 2 ^ 16)
    (heq : createWriteCommand crcOf slave_id1 first_register1 data1 =
      createWriteCommand crcOf slave_id2 first_register2 data2) :
    (slave_id1 = slave_id2 ∧ first_register1 = first_register2 ∧ data1 = data2) ∧
      decodeWriteCommand (createWriteCommand crcOf slave_id1 first_register1 data1) =
        (slave_id1, first_register1, data1) := by
  have h1 := decodeWriteCommand_createWriteCommand crcOf slave_id1 first_register1 data1 hr1 hd1
  have h2 := decodeWriteCommand_createWriteCommand crcOf slave_id2 first_register2 data2 hr2 hd2
  refine ⟨?_, h1⟩
  rw [heq, h2] at h1
  simp only [Prod.mk.injEq] at h1
  exact ⟨h1.1.symm, h1.2.1.symm, h1.2.2.symm⟩

/-- C16 at the activation frame of slave `0x09`. -/
theorem createWriteCommand_injective_witness :
    (0x09 = 0x09 ∧ 0x03E8 = 0x03E8 ∧ [0x0100, 0, 0] = [0x0100, 0, 0]) ∧
      decodeWriteCommand (createWriteCommand computeCRC 0x09 0x03E8 [0x0100, 0, 0]) =
        (0x09, 0x03E8, [0x0100, 0, 0]) :=
  createWriteCommand_injective computeCRC 0x09 0x03E8 [0x0100, 0, 0] 0x09 0x03E8 [0x0100, 0, 0]
    (by decide) (by decide) (by decide) (by decide) rfl

/-- C17: for every slave id `s`, whether or not the port opened, the `read_command_` the
constructor stores is `createReadCommand(0x07D0, 0x06)`, that is the 5 bytes
`[s, 0x03, 0x07, 0xD0, 0x06]` followed by the two bytes of the checksum of these 5 bytes; for
`s = 0x09` the checksummed prefix is `[0x09, 0x03, 0x07, 0xD0, 0x06]`. -/
theorem constructor_read_command {σ : Type} (crcOf : List Nat → Nat) (isOpen : Bool) (s : Nat)
    (w : World σ) :
    (RobotiqGripperInterface.new crcOf isOpen s w).2.read_command_ =
        createReadCommand crcOf s 0x07D0 0x06 ∧
      (RobotiqGripperInterface.new crcOf isOpen s w).2.read_command_ =
        [s, 0x03, 0x07, 0xD0, 0x06] ++
          [getFirstByte (crcOf [s, 0x03, 0x07, 0xD0, 0x06]),
            getSecondByte (crcOf [s, 0x03, 0x07, 0xD0, 0x06])] ∧
      (RobotiqGripperInterface.new crcOf isOpen 0x09 w).2.read_command_ =
        [0x09, 0x03, 0x07, 0xD0, 0x06] ++
          [getFirstByte (crcOf [0x09, 0x03, 0x07, 0xD0, 0x06]),
            getSecondByte (crcOf [0x09, 0x03, 0x07, 0xD0, 0x06])] := by
  have hnew : ∀ t : Nat, (RobotiqGripperInterface.new crcOf isOpen t w).2.read_command_ =
      createReadCommand crcOf t 0x07D0 0x06 := by
    intro t
    unfold RobotiqGripperInterface.new
    dsimp only
    split <;> rfl
  have hfr : ∀ t : Nat, createReadCommand crcOf t 0x07D0 0x06 =
      [t, 0x03, 0x07, 0xD0, 0x06] ++
        [getFirstByte (crcOf [t, 0x03, 0x07, 0xD0, 0x06]),
          getSecondByte (crcOf [t, 0x03, 0x07, 0xD0, 0x06])] := by
    intro t
    rw [createReadCommand_eq]
    rfl
  exact ⟨hnew s, (hnew s).trans (hfr s), (hnew 0x09).trans (hfr 0x09)⟩

end RobotiqGripper
